import Mathlib

/-!
Verification of the resilient HTTP client subsystem of `mcp-agent`
(`src/mcp_agent/client/http.py` and `src/mcp_agent/errors/canonical.py`).

The embedding is shallow: times are rationals (Python floats), the breaker
state mirrors the `_BreakerState` dataclass with its `state` field kept as the
same string values the source uses, and the environment-sourced module
constants (`BREAKER_THRESH`, `BREAKER_WINDOW`, ...) become fields of an
explicit configuration record so that statements can quantify over
configurations.
-/

namespace McpAgent

/-- Configuration of the breaker and retry machinery.  In the source these are
module-level constants read from the environment (`BREAKER_ENABLED`,
`BREAKER_THRESH`, `BREAKER_WINDOW`, `BREAKER_COOLDOWN_MS`, `HALF_OPEN_MAX`);
the source clamps `BREAKER_WINDOW >= 1`, `HALF_OPEN_MAX >= 1` and
`BREAKER_COOLDOWN_MS >= 0`. -/
structure BreakerConfig where
  enabled : Bool
  thresh : ℚ
  window_size : ℕ
  cooldown_ms : ℚ
  half_open_max : ℕ

/-- Source `_BreakerState` from `client/http.py`.  The window is a
`deque(maxlen=window_size)` of booleans (`true` = failure), most recent
first, and `state` is one of the strings `"closed"`, `"open"`,
`"half_open"` exactly as in the source. -/
structure BreakerState where
  window : List Bool
  cooldown_expires_ms : ℚ
  state : String
  half_open_remaining : ℕ

/-- The breaker state the registry creates lazily for a tool: an empty
window and the dataclass defaults (`cooldown_expires_ms=0.0`,
`state="closed"`, `half_open_remaining=0`). -/
def initBreaker : BreakerState :=
  { window := [], cooldown_expires_ms := 0, state := "closed", half_open_remaining := 0 }

namespace BreakerState

/-- Source `_BreakerState.trip`: re-arm the cooldown and go to `"open"`. -/
def trip (cfg : BreakerConfig) (s : BreakerState) (now : ℚ) : BreakerState :=
  { s with cooldown_expires_ms := now + cfg.cooldown_ms, state := "open" }

/-- The `half_open` portion of `_BreakerState.allow`: when the trial budget
is exhausted the call is rejected as `"open"`, otherwise one budget unit is
consumed and the call is admitted as `"half_open"`. -/
def allowHalfOpen (s : BreakerState) : String × BreakerState :=
  if s.half_open_remaining = 0 then ("open", s)
  else ("half_open", { s with half_open_remaining := s.half_open_remaining - 1 })

/-- Source `_BreakerState.allow`, with the current time passed explicitly
(the source reads `time.monotonic()`).  Returns the admission string the
source returns together with the updated state. -/
def allow (cfg : BreakerConfig) (s : BreakerState) (now : ℚ) : String × BreakerState :=
  if s.state = "open" then
    if now ≥ s.cooldown_expires_ms then
      allowHalfOpen { s with state := "half_open", half_open_remaining := cfg.half_open_max }
    else ("open", s)
  else if s.state = "half_open" then allowHalfOpen s
  else ("closed", s)

/-- Source `_BreakerState.record`, with the current time passed explicitly.
`deque.appendleft` on a deque with `maxlen` capacity pushes on the left and
evicts from the right, which is `(x :: w).take capacity`. -/
def record (cfg : BreakerConfig) (s : BreakerState) (success : Bool) (now : ℚ) :
    BreakerState :=
  if !cfg.enabled then s
  else
    let s1 : BreakerState := { s with window := ((!success) :: s.window).take cfg.window_size }
    if success then
      if s1.state = "half_open" ∨ s1.state = "open" then
        { s1 with state := "closed", window := [] }
      else s1
    else if s1.state = "half_open" then s1.trip cfg now
    else
      let failures : ℕ := s1.window.count true
      let total : ℕ := s1.window.length
      if total ≥ cfg.window_size ∧ 0 < total ∧ (failures : ℚ) / (total : ℚ) ≥ cfg.thresh then
        s1.trip cfg now
      else s1

end BreakerState

/-- Iterated failure recording: `record(False)` once per timestamp in the
list, in order. -/
def recordFailures (cfg : BreakerConfig) : BreakerState → List ℚ → BreakerState
  | s, [] => s
  | s, t :: ts => recordFailures cfg (s.record cfg false t) ts

/-- Breaker states reachable from the registry's initial state by any
sequence of admission checks and outcome recordings. -/
inductive ReachableBreaker (cfg : BreakerConfig) : BreakerState → Prop
  | init : ReachableBreaker cfg initBreaker
  | allow_step (s : BreakerState) (now : ℚ) :
      ReachableBreaker cfg s → ReachableBreaker cfg (s.allow cfg now).2
  | record_step (s : BreakerState) (b : Bool) (now : ℚ) :
      ReachableBreaker cfg s → ReachableBreaker cfg (s.record cfg b now)

/-!
Canonical error model, `src/mcp_agent/errors/canonical.py`.

`trace_id` is kept as the raw integer; the 32-hex-digit rendering of
`_format_trace_id` is presentation only and no claim depends on it.
-/

/-- Table `CANONICAL_HINTS` from `errors/canonical.py`, verbatim. -/
def CANONICAL_HINTS : List (String × String) :=
  [("network_timeout", "increase HTTP_TIMEOUT_MS or fix server"),
   ("rate_limited", "honor Retry-After header"),
   ("unauthorized", "provide valid credentials"),
   ("forbidden", "check tool permissions"),
   ("not_found", "verify resource exists"),
   ("upstream_error", "retry later or contact tool owner"),
   ("circuit_open", "breaker cooling down"),
   ("schema_validation_error", "tool payload failed validation")]

/-- Source `_default_hint`: `CANONICAL_HINTS.get(code)`. -/
def default_hint (code : String) : Option String :=
  CANONICAL_HINTS.lookup code

/-- The closed taxonomy of canonical error codes (spec §7); each one is the
`code` of some mapper in `errors/canonical.py`. -/
def canonicalCodes : List String :=
  ["network_timeout", "rate_limited", "unauthorized", "forbidden", "not_found",
   "upstream_error", "unexpected_status", "circuit_open", "schema_validation_error",
   "unknown_error"]

/-- Source `CanonicalErrorPayload`: the structured payload carried by a
`CanonicalError`. -/
structure CanonicalErrorPayload where
  tool : String
  code : String
  http : Option ℕ
  detail : Option String
  hint : Option String
  trace_id : ℕ
deriving DecidableEq

/-- Python's `str.upper()`, modelled as a character map (identical on the
ASCII strings involved here). -/
def str_upper (s : String) : String := ⟨s.data.map Char.toUpper⟩

/-- Python's `str.lower()`, modelled as a character map. -/
def str_lower (s : String) : String := ⟨s.data.map Char.toLower⟩

/-- Source `_clean_detail`: collapse newlines, strip surrounding whitespace,
truncate to 512 characters.  `replace("\n", " ")` has a one-character
pattern, so it is modelled as a character map, and `strip()` as dropping
whitespace from both ends. -/
def clean_detail : Option String → Option String
  | none => none
  | some d =>
      let chars := d.data.map fun c => if c = '\n' then ' ' else c
      let chars := (chars.dropWhile Char.isWhitespace).reverse
      let chars := (chars.dropWhile Char.isWhitespace).reverse
      if chars.length > 512 then some ⟨chars.take 509 ++ ['…']⟩ else some ⟨chars⟩

/-- Source `_build_error`.  Python's `hint or _default_hint(code)` treats an empty
string as falsy, so an empty override also falls back to the static hint. -/
def build_error (tool code : String) (http_status : Option ℕ) (detail : Option String)
    (trace_id : ℕ) (hint : Option String) : CanonicalErrorPayload :=
  { tool := tool, code := code, http := http_status,
    detail := clean_detail detail,
    hint := match hint with
            | some h => if h = "" then default_hint code else some h
            | none => default_hint code,
    trace_id := trace_id }

/-- Source `map_breaker_open`. -/
def map_breaker_open (tool : String) (trace_id : ℕ) : CanonicalErrorPayload :=
  build_error tool "circuit_open" none (some "circuit breaker open") trace_id none

/-- Source `map_payload_too_large`. -/
def map_payload_too_large (tool : String) (trace_id : ℕ) : CanonicalErrorPayload :=
  build_error tool "schema_validation_error" none
    (some "response body exceeds validation limit") trace_id none

/-- Source `map_json_decode_error`. -/
def map_json_decode_error (tool : String) (trace_id : ℕ) : CanonicalErrorPayload :=
  build_error tool "schema_validation_error" none
    (some "response payload was not valid JSON") trace_id none

/-!
`HTTPClient` retry and idempotency machinery, `client/http.py`.
-/

/-- Source `HTTPClient.IDEMPOTENT_METHODS`. -/
def IDEMPOTENT_METHODS : List String := ["GET", "HEAD", "OPTIONS"]

/-- Source `HTTPClient._is_idempotent`, with the merged headers abstracted to their
key list (the source only iterates over the keys). -/
def is_idempotent (method : String) (headerKeys : List String) (idempotent : Option Bool) :
    Bool :=
  match idempotent with
  | some b => b
  | none =>
      if str_upper method ∈ IDEMPOTENT_METHODS then true
      else headerKeys.any fun key =>
        str_lower key = "idempotency-key" || str_lower key = "x-idempotency-key"

/-- The idempotency classification claimed by the spec sentence
"Idempotency is true when: the method is GET/HEAD/OPTIONS, OR an explicit
per-call override says so, OR an idempotency-key header is present" read as
a plain disjunction.  Stated only to compare against `is_idempotent`. -/
def is_idempotent_claimed (method : String) (headerKeys : List String)
    (idempotent : Option Bool) : Bool :=
  decide (str_upper method ∈ IDEMPOTENT_METHODS) || idempotent = some true ||
    headerKeys.any fun key =>
      str_lower key = "idempotency-key" || str_lower key = "x-idempotency-key"

/-- The transport-exception classes `HTTPClient._retry_reason_for_exception`
distinguishes: `httpx.TimeoutException`, other `httpx.TransportError`, and
everything else. -/
inductive ExcKind where
  | timeout
  | transport
  | other
deriving DecidableEq

/-- Source `HTTPClient._retry_reason_for_exception`. -/
def retry_reason_for_exception : ExcKind → Option String
  | .timeout => some "timeout"
  | .transport => some "transport"
  | .other => none

/-- Source `HTTPClient._should_retry_response`. -/
def should_retry_response (status : ℕ) : Option String :=
  if status = 429 then some "rate_limited"
  else if status = 503 then some "unavailable"
  else if status = 500 ∨ (500 < status ∧ status < 600 ∧ status ≠ 501) then
    some "server_error"
  else none

/-- The retry gate of `HTTPClient.request` on a non-2xx response:
`retry_reason and attempt <= RETRY_MAX and idempotent_call`. -/
def response_retry_gate (status attempt retry_max : ℕ) (idempotent_call : Bool) : Bool :=
  (should_retry_response status).isSome && attempt ≤ retry_max && idempotent_call

/-- The retry gate of `HTTPClient.request` on a transport exception:
`retry_reason and attempt <= RETRY_MAX and (idempotent_call or
isinstance(exc, httpx.TimeoutException))`. -/
def exception_retry_gate (exc : ExcKind) (attempt retry_max : ℕ) (idempotent_call : Bool) :
    Bool :=
  (retry_reason_for_exception exc).isSome && attempt ≤ retry_max &&
    (idempotent_call || exc = ExcKind.timeout)

/-!
Backoff and `Retry-After`, `client/http.py`.

`_parse_retry_after` first tries `float(value)` and keeps a non-negative
result; otherwise it tries an RFC date and clamps the delta below at zero;
anything else is `None`.  The header value is abstracted to how Python's two
parsers see it: a numeric string, a date string (carried as its delta from
now, in seconds), an unparsable string, or no header.
-/

inductive RetryAfterValue where
  | absent
  | numeric (seconds : ℚ)
  | httpDate (delta : ℚ)
  | invalid

/-- Source `_parse_retry_after`. -/
def parse_retry_after : RetryAfterValue → Option ℚ
  | .absent => none
  | .numeric seconds => if seconds ≥ 0 then some seconds else none
  | .httpDate delta => some (max 0 delta)
  | .invalid => none

/-- The delay `HTTPClient._sleep_with_backoff` actually sleeps
(`_async_sleep` clamps below at zero): exponential backoff
`RETRY_BASE_MS * 2^(attempt-1) / 1000` seconds times the sampled jitter
factor, raised to the parsed `Retry-After` value when one is present. -/
def sleep_with_backoff (retry_base_ms : ℚ) (attempt : ℕ) (jitter_factor : ℚ)
    (retry_after : RetryAfterValue) : ℚ :=
  let delay := retry_base_ms * 2 ^ (attempt - 1) / 1000 * jitter_factor
  let delay := match parse_retry_after retry_after with
    | some v => max delay v
    | none => delay
  max 0 delay

/-!
Manual redirect handling, `HTTPClient._send`.

The transport is abstracted to a function from requests to responses; URL
resolution (`_absolute_url`) is abstracted to the `Location` value itself.
Python treats an empty `Location` header as absent (`if location and ...`).
-/

def MAX_REDIRECTS : ℕ := 3

structure Req where
  method : String
  url : String
  content : Option String
deriving DecidableEq

structure Resp where
  status : ℕ
  location : Option String
  tag : ℕ
deriving DecidableEq

def REDIRECT_STATUSES : List ℕ := [301, 302, 303, 307, 308]

/-- The follow-up request built inside `HTTPClient._send` for a redirect:
a 303 downgrades to GET and drops the body, other codes keep method and
body. -/
def follow_redirect (req : Req) (status : ℕ) (loc : String) : Req :=
  if status = 303 then { req with url := loc, method := "GET", content := none }
  else { req with url := loc }

/-- The redirect loop of `HTTPClient._send`, with `remaining` the redirect
budget left (`MAX_REDIRECTS - redirects`).  Returns the final response and
how many redirects were followed. -/
def send_loop (transport : Req → Resp) (req : Req) : ℕ → Resp × ℕ
  | 0 => (transport req, 0)
  | remaining + 1 =>
      let resp := transport req
      match resp.location with
      | some loc =>
          if resp.status ∈ REDIRECT_STATUSES ∧ loc ≠ "" then
            let rest := send_loop transport (follow_redirect req resp.status loc) remaining
            (rest.1, rest.2 + 1)
          else (resp, 0)
      | none => (resp, 0)

/-- Source `HTTPClient._send`: the response returned to the request loop. -/
def send (transport : Req → Resp) (req : Req) : Resp :=
  (send_loop transport req MAX_REDIRECTS).1

/-- The number of redirects `HTTPClient._send` follows. -/
def send_follows (transport : Req → Resp) (req : Req) : ℕ :=
  (send_loop transport req MAX_REDIRECTS).2

/-- A transport under which every response is a `301` redirect to a fresh
location (the request's URL with one more `x`); `tag` records the URL length
so distinct responses of the chain are distinguishable. -/
def chainTransport : Req → Resp := fun r =>
  { status := 301, location := some (r.url ++ "x"), tag := r.url.length }

/-!
`HTTPClient.request_json`, with the body as a byte list and `json.loads`
abstracted to a decode function (it is the Python standard library, not this
repository): `decode body = none` exactly when `json.loads` raises.
-/

/-- Result of `request_json` after a successful underlying `request`:
either the decoded value (`none` for an empty body) or a raised canonical
error. -/
def request_json {J : Type} (tool : String) (validation_limit : ℕ) (content : List ℕ)
    (decode : List ℕ → Option J) (trace_id : ℕ) :
    Except CanonicalErrorPayload (Option J) :=
  if content.length > validation_limit then .error (map_payload_too_large tool trace_id)
  else if content.isEmpty then .ok none
  else match decode content with
    | some v => .ok (some v)
    | none => .error (map_json_decode_error tool trace_id)

/-- The start of one iteration of the retry loop in `HTTPClient.request`:
the breaker admission check.  An `"open"` answer raises the `circuit_open`
canonical error before any network call; otherwise the attempt proceeds and
the admission string is recorded on the span. -/
def start_attempt (cfg : BreakerConfig) (tool : String) (trace_id : ℕ)
    (s : BreakerState) (now : ℚ) :
    Except CanonicalErrorPayload String × BreakerState :=
  let r := s.allow cfg now
  if r.1 = "open" then (.error (map_breaker_open tool trace_id), r.2)
  else (.ok r.1, r.2)

/-- The configuration of the spec's P1/P2 scenarios: breaker enabled,
window size 4, threshold 1/2, together with the source defaults for the
cooldown and the half-open budget. -/
def cfgP1 : BreakerConfig :=
  { enabled := true, thresh := 1/2, window_size := 4, cooldown_ms := 5000,
    half_open_max := 3 }

/-- A disabled-breaker configuration with the source defaults otherwise. -/
def cfgDisabled : BreakerConfig :=
  { enabled := false, thresh := 1/2, window_size := 20, cooldown_ms := 5000,
    half_open_max := 3 }

/-- The breaker state after three recorded failures from the initial state
under `cfgP1`. -/
def breakerAfterThree : BreakerState :=
  { window := [true, true, true], cooldown_expires_ms := 0, state := "closed",
    half_open_remaining := 0 }

/-! Helper lemmas about the breaker.  The state strings are distinct. -/

lemma state_closed_ne_half_open : ("closed" : String) ≠ "half_open" := by decide

lemma state_closed_ne_open : ("closed" : String) ≠ "open" := by decide

lemma state_open_ne_half_open : ("open" : String) ≠ "half_open" := by decide

/-- The trip condition `_BreakerState.record` evaluates after a failure is
pushed into window `w`: the window is full and the failure rate reaches the
configured threshold. -/
def tripCond (cfg : BreakerConfig) (w : List Bool) : Prop :=
  w.length ≥ cfg.window_size ∧ 0 < w.length ∧
    (w.count true : ℚ) / (w.length : ℚ) ≥ cfg.thresh

namespace BreakerState

/-- Lemma: `record(False)` from the `"closed"` state trips when the updated window
is full and over the threshold. -/
lemma record_false_closed_trips (cfg : BreakerConfig) (s : BreakerState) (now : ℚ)
    (hen : cfg.enabled = true) (hcl : s.state = "closed")
    (htrip : tripCond cfg ((true :: s.window).take cfg.window_size)) :
    s.record cfg false now =
      { s with window := (true :: s.window).take cfg.window_size,
               state := "open", cooldown_expires_ms := now + cfg.cooldown_ms } := by
  unfold record
  rw [hen]
  simp only [Bool.not_true, Bool.false_eq_true, if_false, Bool.not_false, hcl,
    state_closed_ne_half_open, ite_false]
  rw [if_pos ⟨htrip.1, htrip.2.1, htrip.2.2⟩]
  rfl

/-- Lemma: `record(False)` from the `"closed"` state only updates the window when
the trip condition does not hold. -/
lemma record_false_closed_stays (cfg : BreakerConfig) (s : BreakerState) (now : ℚ)
    (hen : cfg.enabled = true) (hcl : s.state = "closed")
    (hno : ¬ tripCond cfg ((true :: s.window).take cfg.window_size)) :
    s.record cfg false now =
      { s with window := (true :: s.window).take cfg.window_size } := by
  unfold record
  rw [hen]
  simp only [Bool.not_true, Bool.false_eq_true, if_false, Bool.not_false, hcl,
    state_closed_ne_half_open, ite_false]
  rw [if_neg (fun h => hno ⟨h.1, h.2.1, h.2.2⟩)]

/-- Lemma: `record(True)` from `"open"` or `"half_open"`: recovery resets to
`"closed"` and clears the window. -/
lemma record_true_recovers (cfg : BreakerConfig) (s : BreakerState) (now : ℚ)
    (hen : cfg.enabled = true) (hs : s.state = "open" ∨ s.state = "half_open") :
    s.record cfg true now =
      { s with window := [], state := "closed" } := by
  unfold record
  rw [hen]
  simp only [Bool.not_true, Bool.false_eq_true, if_false, Bool.not_true]
  rcases hs with h | h <;> simp [h]

/-- Lemma: `record(False)` from `"half_open"` trips immediately. -/
lemma record_false_half_open (cfg : BreakerConfig) (s : BreakerState) (now : ℚ)
    (hen : cfg.enabled = true) (hs : s.state = "half_open") :
    s.record cfg false now =
      { s with window := (true :: s.window).take cfg.window_size,
               state := "open", cooldown_expires_ms := now + cfg.cooldown_ms } := by
  unfold record
  rw [hen]
  simp only [Bool.not_true, Bool.false_eq_true, if_false, Bool.not_false, hs, ite_false,
    ite_true]
  rfl

/-- Lemma: `record` is a no-op when the breaker is disabled. -/
lemma record_disabled (cfg : BreakerConfig) (s : BreakerState) (b : Bool) (now : ℚ)
    (hdis : cfg.enabled = false) : s.record cfg b now = s := by
  simp [record, hdis]

/-- Lemma: `allow` from the `"closed"` state admits and changes nothing. -/
lemma allow_closed (cfg : BreakerConfig) (s : BreakerState) (now : ℚ)
    (hcl : s.state = "closed") : s.allow cfg now = ("closed", s) := by
  simp [allow, hcl, state_closed_ne_open, state_closed_ne_half_open]

/-- Lemma: `allow` from the `"open"` state during the cooldown rejects and changes
nothing. -/
lemma allow_open_cooldown (cfg : BreakerConfig) (s : BreakerState) (now : ℚ)
    (hop : s.state = "open") (hcool : now < s.cooldown_expires_ms) :
    s.allow cfg now = ("open", s) := by
  simp [allow, hop, not_le.mpr hcool]

end BreakerState

/-- With the breaker disabled, every reachable state is still `"closed"`. -/
lemma reachable_disabled_closed (cfg : BreakerConfig) (hdis : cfg.enabled = false)
    (s : BreakerState) (hr : ReachableBreaker cfg s) : s.state = "closed" := by
  induction hr with
  | init => rfl
  | allow_step s now _ ih =>
      rw [BreakerState.allow_closed cfg s now ih]
      exact ih
  | record_step s b now _ ih =>
      rw [BreakerState.record_disabled cfg s b now hdis]
      exact ih

/-- From a `"closed"` state, a sequence of recorded failures that leaves the
window short of its capacity keeps the breaker closed, and each failure only
lengthens the window by one. -/
lemma recordFailures_stays_closed (cfg : BreakerConfig) (hen : cfg.enabled = true)
    (ts : List ℚ) :
    ∀ s : BreakerState, s.state = "closed" →
      s.window.length + ts.length < cfg.window_size →
      (recordFailures cfg s ts).state = "closed" ∧
      (recordFailures cfg s ts).window.length = s.window.length + ts.length := by
  induction ts with
  | nil =>
      intro s hcl _
      exact ⟨hcl, by simp [recordFailures]⟩
  | cons t ts ih =>
      intro s hcl hlen
      have hlt : s.window.length + 1 < cfg.window_size := by
        simp only [List.length_cons] at hlen
        omega
      have hwlen : ((true :: s.window).take cfg.window_size).length = s.window.length + 1 := by
        rw [List.length_take, List.length_cons]
        omega
      have hno : ¬ tripCond cfg ((true :: s.window).take cfg.window_size) := by
        intro h
        have h1 := h.1
        rw [hwlen] at h1
        omega
      have hrec := BreakerState.record_false_closed_stays cfg s t hen hcl hno
      have ih2 := ih { s with window := (true :: s.window).take cfg.window_size }
        hcl
        (by
          show ((true :: s.window).take cfg.window_size).length + ts.length < cfg.window_size
          rw [hwlen]
          simp only [List.length_cons] at hlen
          omega)
      refine ⟨?_, ?_⟩
      · show (recordFailures cfg (s.record cfg false t) ts).state = "closed"
        rw [hrec]
        exact ih2.1
      · show (recordFailures cfg (s.record cfg false t) ts).window.length =
          s.window.length + (t :: ts).length
        rw [hrec]
        have := ih2.2
        rw [this]
        show ((true :: s.window).take cfg.window_size).length + ts.length = _
        rw [hwlen]
        simp only [List.length_cons]
        omega

/-- Claim C1: with the breaker enabled, recording a failed outcome in the
closed state trips the breaker to open with
`cooldown_expires_at = now + cooldown_ms` whenever the sliding window (after
the failure is pushed) has reached its capacity and its failure rate reaches
the threshold; every admission check before the cooldown expires answers
"open", and the request loop then raises the `circuit_open` canonical error
without any network attempt and without touching the breaker state. -/
theorem breaker_trip_C1 (cfg : BreakerConfig) (s : BreakerState) (now : ℚ)
    (tool : String) (trace_id : ℕ)
    (hen : cfg.enabled = true) (hcl : s.state = "closed")
    (htrip : tripCond cfg ((true :: s.window).take cfg.window_size)) :
    (s.record cfg false now).state = "open" ∧
    (s.record cfg false now).cooldown_expires_ms = now + cfg.cooldown_ms ∧
    ∀ t : ℚ, t < now + cfg.cooldown_ms →
      ((s.record cfg false now).allow cfg t).1 = "open" ∧
      start_attempt cfg tool trace_id (s.record cfg false now) t =
        (.error (map_breaker_open tool trace_id), s.record cfg false now) := by
  have hrec := BreakerState.record_false_closed_trips cfg s now hen hcl htrip
  rw [hrec]
  refine ⟨rfl, rfl, fun t ht => ?_⟩
  have hallow := BreakerState.allow_open_cooldown cfg
    { s with window := (true :: s.window).take cfg.window_size,
             state := "open", cooldown_expires_ms := now + cfg.cooldown_ms } t rfl ht
  refine ⟨by rw [hallow], ?_⟩
  unfold start_attempt
  rw [hallow]
  rfl

/-- Witness for C1 at the spec's P1 scenario: window size 4 and threshold
1/2, a fourth consecutive failure trips the breaker, and an admission check
during the cooldown is rejected with the `circuit_open` error. -/
theorem breaker_trip_C1_witness :
    (BreakerState.record cfgP1 breakerAfterThree false 100).state = "open" ∧
    (BreakerState.record cfgP1 breakerAfterThree false 100).cooldown_expires_ms =
      100 + cfgP1.cooldown_ms ∧
    ((BreakerState.record cfgP1 breakerAfterThree false 100).allow cfgP1 2000).1 = "open" ∧
    start_attempt cfgP1 "brave_search" 0
        (BreakerState.record cfgP1 breakerAfterThree false 100) 2000 =
      (.error (map_breaker_open "brave_search" 0),
        BreakerState.record cfgP1 breakerAfterThree false 100) := by
  have h := breaker_trip_C1 cfgP1 breakerAfterThree 100 "brave_search" 0 rfl rfl
    (by norm_num [tripCond, cfgP1, breakerAfterThree])
  have h2 := h.2.2 2000 (by norm_num [cfgP1])
  exact ⟨h.1, h.2.1, h2.1, h2.2⟩

/-- Claim C2: with the breaker enabled, a successful outcome recorded while
open or half-open resets the breaker to closed with an empty window, and
afterwards any sequence of fewer than `window_size` recorded failures leaves
it closed, and a re-trip from closed is only possible when the window is full
again and the failure rate reaches the threshold. -/
theorem breaker_recovery_C2 (cfg : BreakerConfig) (s : BreakerState) (now : ℚ)
    (hen : cfg.enabled = true) (hs : s.state = "open" ∨ s.state = "half_open") :
    (s.record cfg true now).state = "closed" ∧
    (s.record cfg true now).window = [] ∧
    (∀ ts : List ℚ, ts.length < cfg.window_size →
      (recordFailures cfg (s.record cfg true now) ts).state = "closed") ∧
    ∀ (s2 : BreakerState) (now2 : ℚ), s2.state = "closed" →
      (s2.record cfg false now2).state = "open" →
      tripCond cfg ((true :: s2.window).take cfg.window_size) := by
  have hrec := BreakerState.record_true_recovers cfg s now hen hs
  rw [hrec]
  refine ⟨rfl, rfl, fun ts hts => ?_, fun s2 now2 hcl2 hopen => ?_⟩
  · have h := recordFailures_stays_closed cfg hen ts
      { s with window := [], state := "closed" } rfl
      (by
        show ([] : List Bool).length + ts.length < cfg.window_size
        simpa using hts)
    exact h.1
  · by_contra hno
    rw [BreakerState.record_false_closed_stays cfg s2 now2 hen hcl2 hno] at hopen
    have hopen2 : s2.state = "open" := hopen
    exact state_closed_ne_open (hcl2.symm.trans hopen2)

/-- Witness for C2: a tripped breaker under the P1 configuration recovers on
one success, and three subsequent failures (window size 4) do not re-trip
it. -/
theorem breaker_recovery_C2_witness :
    (BreakerState.record cfgP1
      { window := [true, true, true, true], cooldown_expires_ms := 5100,
        state := "open", half_open_remaining := 0 } true 6000).state = "closed" ∧
    (BreakerState.record cfgP1
      { window := [true, true, true, true], cooldown_expires_ms := 5100,
        state := "open", half_open_remaining := 0 } true 6000).window = [] ∧
    (recordFailures cfgP1
      (BreakerState.record cfgP1
        { window := [true, true, true, true], cooldown_expires_ms := 5100,
          state := "open", half_open_remaining := 0 } true 6000)
      [6100, 6200, 6300]).state = "closed" := by
  have h := breaker_recovery_C2 cfgP1
    { window := [true, true, true, true], cooldown_expires_ms := 5100,
      state := "open", half_open_remaining := 0 } 6000 rfl (Or.inl rfl)
  exact ⟨h.1, h.2.1, h.2.2.1 [6100, 6200, 6300] (by decide)⟩

/-- Claim C3: with the breaker enabled, a failed outcome recorded while
half-open immediately re-trips to open and re-arms
`cooldown_expires_at = now + cooldown_ms`; the statement quantifies over an
arbitrary window, so no condition on the window's contents or fullness is
involved. -/
theorem halfopen_retrip_C3 (cfg : BreakerConfig) (s : BreakerState) (now : ℚ)
    (hen : cfg.enabled = true) (hs : s.state = "half_open") :
    (s.record cfg false now).state = "open" ∧
    (s.record cfg false now).cooldown_expires_ms = now + cfg.cooldown_ms := by
  rw [BreakerState.record_false_half_open cfg s now hen hs]
  exact ⟨rfl, rfl⟩

/-- Witness for C3 with an empty window: the half-open breaker re-trips on a
single failure without any window refill. -/
theorem halfopen_retrip_C3_witness :
    (BreakerState.record cfgP1
      { window := [], cooldown_expires_ms := 5100, state := "half_open",
        half_open_remaining := 2 } false 7000).state = "open" ∧
    (BreakerState.record cfgP1
      { window := [], cooldown_expires_ms := 5100, state := "half_open",
        half_open_remaining := 2 } false 7000).cooldown_expires_ms =
      7000 + cfgP1.cooldown_ms :=
  halfopen_retrip_C3 cfgP1
    { window := [], cooldown_expires_ms := 5100, state := "half_open",
      half_open_remaining := 2 } 7000 rfl rfl

/-- Claim C8: with the breaker-enabled flag false, recording an outcome is a
no-op on the whole breaker state, and every state reachable from the initial
closed state by admission checks and recordings answers "closed" to every
admission check (and is left unchanged by it), so no call is ever
rejected. -/
theorem breaker_disabled_C8 (cfg : BreakerConfig) (hdis : cfg.enabled = false) :
    (∀ (s : BreakerState) (b : Bool) (now : ℚ), s.record cfg b now = s) ∧
    ∀ s : BreakerState, ReachableBreaker cfg s →
      ∀ now : ℚ, (s.allow cfg now).1 = "closed" ∧ (s.allow cfg now).2 = s := by
  refine ⟨fun s b now => BreakerState.record_disabled cfg s b now hdis,
    fun s hr now => ?_⟩
  have hcl := reachable_disabled_closed cfg hdis s hr
  rw [BreakerState.allow_closed cfg s now hcl]
  exact ⟨rfl, rfl⟩

/-- Witness for C8: with the breaker disabled, recording a failure leaves
the initial state untouched and the admission check answers "closed". -/
theorem breaker_disabled_C8_witness :
    BreakerState.record cfgDisabled initBreaker false 5 = initBreaker ∧
    (BreakerState.allow cfgDisabled initBreaker 9).1 = "closed" := by
  have h := breaker_disabled_C8 cfgDisabled rfl
  exact ⟨h.1 initBreaker false 5, (h.2 initBreaker ReachableBreaker.init 9).1⟩

/-- Counterexample to C4 as stated: a `GET` with the explicit per-call
override `idempotent=False` is classified non-idempotent by the code,
although the claimed disjunction (method in GET/HEAD/OPTIONS, or the
override says so, or an idempotency-key header is present) evaluates to
true there. -/
theorem idempotency_C4_counterexample :
    is_idempotent "GET" [] (some false) = false ∧
    is_idempotent_claimed "GET" [] (some false) = true ∧
    is_idempotent "GET" [] (some false) ≠ is_idempotent_claimed "GET" [] (some false) := by
  decide

/-- Claim C4 amended: when no explicit override is supplied the call is
idempotent iff the upper-cased method is GET/HEAD/OPTIONS or a header named
(case-insensitively) `idempotency-key` or `x-idempotency-key` is present;
an explicit override decides by itself.  Retry-candidate HTTP responses are
actually retried only for idempotent calls within the attempt budget, while
timeout-class transport failures bypass the idempotency gate. -/
theorem idempotency_gate_C4 :
    (∀ (method : String) (headerKeys : List String),
      is_idempotent method headerKeys none =
        (decide (str_upper method ∈ IDEMPOTENT_METHODS) ||
          headerKeys.any fun key =>
            str_lower key = "idempotency-key" || str_lower key = "x-idempotency-key")) ∧
    (∀ (method : String) (headerKeys : List String) (b : Bool),
      is_idempotent method headerKeys (some b) = b) ∧
    (∀ (status attempt retry_max : ℕ) (idem : Bool),
      response_retry_gate status attempt retry_max idem = true → idem = true) ∧
    (∀ (exc : ExcKind) (attempt retry_max : ℕ) (idem : Bool),
      exception_retry_gate exc attempt retry_max idem = true →
        idem = true ∨ exc = ExcKind.timeout) ∧
    (∀ (attempt retry_max : ℕ) (idem : Bool), attempt ≤ retry_max →
      exception_retry_gate ExcKind.timeout attempt retry_max idem = true) := by
  refine ⟨fun method headerKeys => ?_, fun method headerKeys b => rfl,
    fun status attempt retry_max idem hgate => ?_, fun exc attempt retry_max idem hgate => ?_,
    fun attempt retry_max idem hle => ?_⟩
  · unfold is_idempotent
    split <;> simp_all
  · simp only [response_retry_gate, Bool.and_eq_true] at hgate
    exact hgate.2
  · simp only [exception_retry_gate, Bool.and_eq_true, Bool.or_eq_true] at hgate
    rcases hgate.2 with h | h
    · exact Or.inl h
    · exact Or.inr (by simpa using h)
  · simp [exception_retry_gate, retry_reason_for_exception, hle]

/-- Witness for the amended C4: a `POST` with an idempotency-key header is
idempotent, the explicit `False` override wins over a `GET` method, and a
timeout at attempt 2 of 3 is retried even for a non-idempotent call. -/
theorem idempotency_gate_C4_witness :
    is_idempotent "POST" ["X-Idempotency-Key"] none = true ∧
    is_idempotent "GET" [] (some false) = false ∧
    exception_retry_gate ExcKind.timeout 2 3 false = true := by
  have h := idempotency_gate_C4
  refine ⟨?_, h.2.1 "GET" [] false, h.2.2.2.2 2 3 false (by decide)⟩
  rw [h.1 "POST" ["X-Idempotency-Key"]]
  decide

/-- Claim C10: an explicit per-call `idempotent` argument decides the
classification by itself, overriding both the method class and any
idempotency-key header; in particular `idempotent=False` makes even a GET
non-idempotent and the response retry gate then refuses every retry for
that call. -/
theorem idempotent_override_C10 :
    (∀ (method : String) (headerKeys : List String) (b : Bool),
      is_idempotent method headerKeys (some b) = b) ∧
    (∀ (headerKeys : List String) (status attempt retry_max : ℕ),
      response_retry_gate status attempt retry_max
        (is_idempotent "GET" headerKeys (some false)) = false) := by
  refine ⟨fun method headerKeys b => rfl,
    fun headerKeys status attempt retry_max => ?_⟩
  simp [is_idempotent, response_retry_gate]

/-- Claim C5: whenever the failed response's `Retry-After` header parses
(as a plain non-negative number of seconds or as an HTTP-date), the slept
delay is at least the parsed value and at least the computed
exponential-backoff-with-jitter delay that would have been used without the
header; an unparsable header leaves the computed delay unchanged. -/
theorem retry_after_C5 (retry_base_ms : ℚ) (attempt : ℕ) (jitter_factor : ℚ)
    (h : RetryAfterValue) (v : ℚ) (hparse : parse_retry_after h = some v) :
    sleep_with_backoff retry_base_ms attempt jitter_factor h ≥ v ∧
    sleep_with_backoff retry_base_ms attempt jitter_factor h ≥
      sleep_with_backoff retry_base_ms attempt jitter_factor .absent ∧
    sleep_with_backoff retry_base_ms attempt jitter_factor .invalid =
      sleep_with_backoff retry_base_ms attempt jitter_factor .absent := by
  unfold sleep_with_backoff
  rw [hparse]
  refine ⟨le_trans (le_max_right _ v) (le_max_right 0 _), ?_, rfl⟩
  show max 0 _ ≤ max 0 _
  exact max_le_max le_rfl (le_max_left _ v)

/-- Witness for C5 at the spec's P5 scenario: `Retry-After: 0.05` forces the
slept delay to be at least `0.05` seconds. -/
theorem retry_after_C5_witness :
    sleep_with_backoff 100 1 1 (.numeric (1/20)) ≥ 1/20 ∧
    sleep_with_backoff 100 1 1 (.numeric (1/20)) ≥ sleep_with_backoff 100 1 1 .absent ∧
    sleep_with_backoff 100 1 1 .invalid = sleep_with_backoff 100 1 1 .absent :=
  retry_after_C5 100 1 1 (.numeric (1/20)) (1/20) (by norm_num [parse_retry_after])

/-- Lemma: `send_loop` follows at most as many redirects as its remaining
budget. -/
lemma send_loop_follows_le (transport : Req → Resp) :
    ∀ (n : ℕ) (req : Req), (send_loop transport req n).2 ≤ n := by
  intro n
  induction n with
  | zero => intro req; simp [send_loop]
  | succ n ih =>
      intro req
      unfold send_loop
      dsimp only
      split
      · split
        · simpa using ih _
        · simp
      · simp

/-- Claim C6: redirect responses (301/302/303/307/308 with a `Location`)
are followed at most 3 times; a chain of four redirects ends with the
fourth redirect response returned to the caller as-is (the model's `_send`
is total, so nothing is raised); a 303 downgrade switches the follow-up
request to GET with no body while every other redirect code preserves
method and body. -/
theorem redirect_cap_C6 :
    (∀ (transport : Req → Resp) (req : Req), send_follows transport req ≤ 3) ∧
    send chainTransport { method := "GET", url := "u", content := none } =
      { status := 301, location := some "uxxxx", tag := 4 } ∧
    send_follows chainTransport { method := "GET", url := "u", content := none } = 3 ∧
    (∀ (req : Req) (loc : String),
      follow_redirect req 303 loc =
        { method := "GET", url := loc, content := none }) ∧
    (∀ (req : Req) (status : ℕ) (loc : String), status ≠ 303 →
      (follow_redirect req status loc).method = req.method ∧
      (follow_redirect req status loc).content = req.content ∧
      (follow_redirect req status loc).url = loc) := by
  refine ⟨fun transport req => send_loop_follows_le transport MAX_REDIRECTS req,
    by decide, by decide, fun req loc => by simp [follow_redirect],
    fun req status loc hne => ?_⟩
  rw [follow_redirect, if_neg hne]
  exact ⟨rfl, rfl, rfl⟩

/-- Witness for C6: a 307 redirect of a `POST` keeps method and body. -/
theorem redirect_cap_C6_witness :
    (follow_redirect { method := "POST", url := "u", content := some "b" } 307 "v").method =
      "POST" ∧
    (follow_redirect { method := "POST", url := "u", content := some "b" } 307 "v").content =
      some "b" ∧
    (follow_redirect { method := "POST", url := "u", content := some "b" } 307 "v").url =
      "v" :=
  redirect_cap_C6.2.2.2.2 { method := "POST", url := "u", content := some "b" } 307 "v"
    (by decide)

/-- Claim C7: after a successful underlying request, `request_json` returns
`None` for an empty body; a body longer than the configured limit raises the
payload-too-large canonical error, which differs from the JSON-decode
canonical error; a non-empty body within the limit that fails to decode
raises the decode error, and otherwise the decoded value is returned. -/
theorem request_json_C7 {J : Type} (tool : String) (limit : ℕ) (content : List ℕ)
    (decode : List ℕ → Option J) (trace_id : ℕ) :
    (content = [] → request_json tool limit content decode trace_id = .ok none) ∧
    (content.length > limit →
      request_json tool limit content decode trace_id =
        .error (map_payload_too_large tool trace_id)) ∧
    map_payload_too_large tool trace_id ≠ map_json_decode_error tool trace_id ∧
    (content ≠ [] → content.length ≤ limit → decode content = none →
      request_json tool limit content decode trace_id =
        .error (map_json_decode_error tool trace_id)) ∧
    (∀ v : J, content ≠ [] → content.length ≤ limit → decode content = some v →
      request_json tool limit content decode trace_id = .ok (some v)) := by
  refine ⟨fun hemp => ?_, fun hbig => ?_, ?_, fun hne hle hdec => ?_,
    fun v hne hle hdec => ?_⟩
  · subst hemp
    simp [request_json]
  · simp [request_json, hbig]
  · intro heq
    have := congrArg CanonicalErrorPayload.detail heq
    simp [map_payload_too_large, map_json_decode_error, build_error, clean_detail] at this
  · simp only [request_json]
    rw [if_neg (by omega), if_neg (by simp [List.isEmpty_iff, hne]), hdec]
  · simp only [request_json]
    rw [if_neg (by omega), if_neg (by simp [List.isEmpty_iff, hne]), hdec]

/-- Witness for C7: empty body gives `none`, a five-byte body over a
four-byte limit is too large, an undecodable two-byte body raises the decode
error, and a decodable one returns its value. -/
theorem request_json_C7_witness :
    @request_json ℕ "github" 4 [] (fun _ => none) 7 = .ok none ∧
    @request_json ℕ "github" 4 [1, 2, 3, 4, 5] (fun _ => none) 7 =
      .error (map_payload_too_large "github" 7) ∧
    map_payload_too_large "github" 7 ≠ map_json_decode_error "github" 7 ∧
    @request_json ℕ "github" 4 [1, 2] (fun _ => none) 7 =
      .error (map_json_decode_error "github" 7) ∧
    @request_json ℕ "github" 4 [1, 2] (fun _ => some 5) 7 = .ok (some 5) := by
  refine ⟨(@request_json_C7 ℕ "github" 4 [] (fun _ => none) 7).1 rfl,
    (@request_json_C7 ℕ "github" 4 [1, 2, 3, 4, 5] (fun _ => none) 7).2.1 (by decide),
    (@request_json_C7 ℕ "github" 4 [] (fun _ => none) 7).2.2.1,
    (@request_json_C7 ℕ "github" 4 [1, 2] (fun _ => none) 7).2.2.2.1 (by decide) (by decide)
      rfl,
    (@request_json_C7 ℕ "github" 4 [1, 2] (fun _ => some 5) 7).2.2.2.2 5 (by decide)
      (by decide) rfl⟩

/-- Counterexample to C9 as stated: `unexpected_status` belongs to the
closed taxonomy but the static hint table has no entry for it, so the
default-hint lookup yields nothing and an error built without an override
carries no hint (likewise `unknown_error`). -/
theorem default_hint_C9_counterexample :
    "unexpected_status" ∈ canonicalCodes ∧
    default_hint "unexpected_status" = none ∧
    default_hint "unknown_error" = none ∧
    (build_error "slack" "unexpected_status" (some 418) (some "teapot") 0 none).hint =
      none := by
  decide

/-- Claim C9 amended: every code of the closed taxonomy except
`unexpected_status` and `unknown_error` has a static default hint, those two
have none, and an error built without a hint override carries exactly the
static default hint of its code. -/
theorem default_hint_C9 :
    (∀ code ∈ canonicalCodes, code ≠ "unexpected_status" → code ≠ "unknown_error" →
      (default_hint code).isSome = true) ∧
    default_hint "unexpected_status" = none ∧
    default_hint "unknown_error" = none ∧
    (∀ (tool code : String) (http : Option ℕ) (detail : Option String) (trace : ℕ),
      (build_error tool code http detail trace none).hint = default_hint code) := by
  exact ⟨by decide, rfl, rfl, fun tool code http detail trace => rfl⟩

/-- Witness for the amended C9 at `rate_limited`: the static hint exists and
an error built without an override carries it. -/
theorem default_hint_C9_witness :
    (default_hint "rate_limited").isSome = true ∧
    (build_error "slack" "rate_limited" (some 429) (some "slow down") 3 none).hint =
      default_hint "rate_limited" := by
  have h := default_hint_C9
  exact ⟨h.1 "rate_limited" (by decide) (by decide) (by decide),
    h.2.2.2 "slack" "rate_limited" (some 429) (some "slow down") 3⟩

end McpAgent
